import Mathlib

/-!
Verification of the offline surface-location cache
(`surface_tracker/surface_offline.py`, class `Surface_Offline`).

The Python class is shallowly embedded: the mutable object becomes an
explicit state record (`SOState`), exceptions become an `Except PyErr`
result, and the `while` loop of `_build_definition_from_cache` and the
recursive call in `update_location` are driven by explicit fuel (fuel
exhaustion models Python non-termination / `RecursionError`).

External collaborators that are not part of the analysed source file
(the parent class `Surface`, `Surface_Location`, `Cache_List`,
`player_methods`, `background_tasks`) are modelled from the spec; each
such definition carries a doc comment starting with
"Modelled from the spec:".
-/

/-- Python exceptions that the embedded code can raise, plus a
non-termination marker used when loop/recursion fuel runs out. -/
inductive PyErr where
  | typeError
  | attributeError
  | indexError
  | recursionError
  | nonTermination
deriving DecidableEq, Repr

/-- Modelled from the spec: a `Surface_Location` value (`LocationState`
that has been computed).  `detected` distinguishes `Detected` from
`NotDetected`; the four transform matrices are opaque tokens (`Option Nat`,
`none` when the surface was not detected). -/
structure Loc where
  detected : Bool
  dist_img_to_surf_trans : Option Nat
  surf_to_dist_img_trans : Option Nat
  img_to_surf_trans : Option Nat
  surf_to_img_trans : Option Nat
  num_detected_markers : Nat
deriving DecidableEq, Repr

/-- `Surface_Location(detected=False)`: the `NotDetected` state. -/
def notDetectedLoc : Loc := ⟨false, none, none, none, none, 0⟩

/-- A marker as delivered by the external marker source: an id plus an
opaque payload standing for the pixel vertices. -/
structure Marker where
  id : Nat
  payload : Nat
deriving DecidableEq, Repr

/-- One entry of the external marker cache: `none` models the Python
`False` sentinel ("not yet computed upstream"), `some l` a computed list
of detected markers (possibly empty). -/
abbrev MEntry := Option (List Marker)

/-- One step of building the Python dict `{m.id: m for m in markers}`:
a later marker with the same id overwrites the stored value in place. -/
def dictInsert (d : List (Nat × Marker)) (m : Marker) : List (Nat × Marker) :=
  if d.any (fun p => p.1 = m.id) then
    d.map (fun p => if p.1 = m.id then (p.1, m) else p)
  else d ++ [(m.id, m)]

/-- The dict comprehension `{m.id: m for m in markers}` as an ordered
association list with Python dict insertion/overwrite semantics. -/
def mkDict (l : List Marker) : List (Nat × Marker) := l.foldl dictInsert []

/-- Modelled from the spec: the handle of one background fill job
(`BackgroundJob`).  `pending` is the finite sequence of `(frame index,
location)` results currently available to `fetch`, `completed` the
completion flag.  Jobs get consecutive ids so that cancellation can be
observed in the state's `cancel_log`. -/
structure Job where
  id : Nat
  pending : List (Nat × Loc)
  completed : Bool
deriving DecidableEq, Repr

/-- Modelled from the spec: the behaviour of all external collaborators,
bundled as one record of pure functions.
* `locate`: `Surface.locate(markers, camera_model, registered_undist,
  registered_dist)`; the camera model is folded in, registrations are
  opaque `Nat` tokens.
* `updateDefCore`: the effect of `Surface._update_definition` (the
  definition accumulator) on the registrations and `build_up_status`.
* `pruneM`: `Surface.prune_markers`.
* `moveCornerCore`, `addMarkerCore`, `popMarkerCore`: the geometry part
  of the corresponding `Surface` methods.
* `enclosingWindow`: `player_methods.enclosing_window`.
* `byTsWindow`: `all_gaze_events.by_ts_window`.
* `mapEvent`: `Surface.map_gaze_and_fixation_events` applied to a single
  event given the stored image-to-surface transform. -/
structure ExtFns where
  locate : List (Nat × Marker) → Nat → Nat → Loc
  updateDefCore : Nat → List (Nat × Marker) → Nat → Nat → ℚ → Nat × Nat × ℚ
  pruneM : Nat → Nat → Nat × Nat
  moveCornerCore : Nat → Nat → Nat → Nat × Nat → Nat × Nat
  addMarkerCore : Nat → Nat → Nat → Nat × Nat
  popMarkerCore : Nat → Nat → Nat → Nat × Nat
  enclosingWindow : List Nat → Nat → Nat × Nat
  byTsWindow : List Nat → Nat × Nat → List Nat
  mapEvent : Option Nat → Nat → Nat

/-- The state of one `Surface_Offline` object.  The location cache is
`none` when absent (`self.location_cache = None`); a present cache is a
list of per-frame entries where `none` models the `False` ("Unknown")
sentinel.  `change_fires` counts invocations of the `on_surface_change`
subscriber, `spawn_count` the background jobs started so far (also used
as the next job id), `cancel_log` the ids of cancelled jobs. -/
structure SOState where
  location_cache : Option (List (Option Loc))
  cache_seek_idx : Nat
  location_cache_filler : Option Job
  observations_frame_idxs : List Nat
  on_surface_change : Bool
  start_idx : Option Nat
  build_up_status : ℚ
  reg_undist : Nat
  reg_dist : Nat
  current : Loc
  change_fires : Nat
  spawn_count : Nat
  cancel_log : List Nat
deriving DecidableEq, Repr

/-- Modelled from the spec: the parent property `Surface.defined` — the
definition is terminal once `build_up_status` has reached `1.0`. -/
def definedS (s : SOState) : Bool := 1 ≤ s.build_up_status

/-- The final assignment block of `update_location`: the surface adopts
the location's detection state and transforms. -/
def adoptLoc (loc : Loc) (s : SOState) : SOState := {s with current := loc}

/-- `_recalculate_location_cache`: cancel any live filler job, reset the
seek cursor to `frame_idx`, reset the cache to all-`False` of
marker-cache length, and start one fresh background job.  Modelled from
the spec: a freshly started job has produced no results yet and is not
completed. -/
def recalculate_location_cache (frame_idx : Nat) (mc : List MEntry) (s : SOState) : SOState :=
  let s1 := match s.location_cache_filler with
    | some j => {s with cancel_log := s.cancel_log ++ [j.id]}
    | none => s
  {s1 with cache_seek_idx := frame_idx,
           location_cache := some (List.replicate mc.length none),
           location_cache_filler := some ⟨s1.spawn_count, [], false⟩,
           spawn_count := s1.spawn_count + 1}

/-- `update_location_cache`: recompute a single cache entry.  A `False`
or empty marker entry yields `NotDetected`; otherwise `Surface.locate`
is called on the marker dict.  Writing into an absent cache raises
`AttributeError`, which the source catches by recalculating; an
out-of-range index raises `IndexError`, which is not caught. -/
def update_location_cache (X : ExtFns) (frame_idx : Nat) (mc : List MEntry) (s : SOState) :
    Except PyErr SOState :=
  match mc.get? frame_idx with
  | none => .error .indexError
  | some entry =>
    let location : Loc :=
      match entry with
      | none => notDetectedLoc
      | some l => if l.isEmpty then notDetectedLoc else X.locate (mkDict l) s.reg_undist s.reg_dist
    match s.location_cache with
    | none => .ok (recalculate_location_cache frame_idx mc s)
    | some c =>
      if frame_idx < c.length then
        .ok {s with location_cache := some (c.set frame_idx (some location))}
      else .error .indexError

/-- The drain loop of `_fetch_from_location_cache_filler`: apply each
fetched `(idx, location)` pair to the cache with forced overwrite.  An
out-of-range index raises `IndexError` (only `AttributeError` is caught
at this point in the source). -/
def drainResults : List (Nat × Loc) → List (Option Loc) → Except PyErr (List (Option Loc))
  | [], c => .ok c
  | (i, l) :: rest, c =>
    if i < c.length then drainResults rest (c.set i (some l))
    else .error .indexError

/-- `_fetch_from_location_cache_filler`.  Faithful to the source,
including its two failure modes: if the cache is absent and the job has
pending results, the except-branch nulls the filler handle and the
subsequent `self.location_cache_filler.completed` dereference raises
`AttributeError`; if the job reports completed, `self.on_surface_change(self)`
is called without a `None` check and raises `TypeError` when no
subscriber is set. -/
def fetch_from_location_cache_filler (s : SOState) : Except PyErr SOState :=
  match s.location_cache_filler with
  | none => .ok s
  | some j =>
    match s.location_cache with
    | none =>
      match j.pending with
      | [] =>
        if j.completed then
          if s.on_surface_change then
            .ok {s with location_cache_filler := none, change_fires := s.change_fires + 1}
          else .error .typeError
        else .ok s
      | _ :: _ =>
        .error .attributeError
    | some c =>
      match drainResults j.pending c with
      | .error e => .error e
      | .ok c2 =>
        let s2 := {s with location_cache := some c2,
                          location_cache_filler := some {j with pending := []}}
        if j.completed then
          if s2.on_surface_change then
            .ok {s2 with location_cache_filler := none, change_fires := s2.change_fires + 1}
          else .error .typeError
        else .ok s2

/-- `Surface_Offline._update_definition`: record the observed frame
index, then run the parent accumulator. -/
def updateDefinition (X : ExtFns) (i : Nat) (l : List Marker) (s : SOState) : SOState :=
  let d := mkDict l
  let r := X.updateDefCore i d s.reg_undist s.reg_dist s.build_up_status
  {s with observations_frame_idxs := s.observations_frame_idxs ++ [i],
          reg_undist := r.1, reg_dist := r.2.1, build_up_status := r.2.2}

/-- The loop-closure branch of `_build_definition_from_cache`:
`build_up_status = 1.0` and `prune_markers()`. -/
def closeDefinition (X : ExtFns) (s : SOState) : SOState :=
  let r := X.pruneM s.reg_undist s.reg_dist
  {s with build_up_status := 1, reg_undist := r.1, reg_dist := r.2}

/-- The `else` clause of the bootstrap `while` loop: all previous
detections were preliminary, so the cache is devalidated and the change
callback fires (here with an explicit `None` check, unlike the drain). -/
def devalidateProvisional (s : SOState) : SOState :=
  let s1 := {s with location_cache := none}
  if s1.on_surface_change then {s1 with change_fires := s1.change_fires + 1} else s1

/-- The outcome of one iteration of the bootstrap `while` loop body. -/
inductive StepRes where
  | err : PyErr → StepRes
  | brk : SOState → StepRes
  | close : SOState → StepRes
  | next : Nat → SOState → StepRes

/-- The part of the bootstrap loop body after the `is False` check: feed
the frame into the definition accumulator if its index has not yet
contributed, then test the loop-closure condition `def_idx == frame_idx - 1`.
Reached with `def_idx = frame_idx` from the `except TypeError` branch,
in which case the marker entry has not been checked against `False`: an
entry that is `False` there is iterated by the dict comprehension and
raises `TypeError`. -/
def buildBody (X : ExtFns) (mc : List MEntry) (frame_idx i : Nat) (s : SOState) : StepRes :=
  let step : SOState → StepRes := fun s2 =>
    if i + 1 = frame_idx then .close (closeDefinition X s2) else .next (i + 1) s2
  if i ∈ s.observations_frame_idxs then step s
  else
    match mc.get? i with
    | none => .err .indexError
    | some none => .err .typeError
    | some (some l) => step (updateDefinition X i l s)

/-- One iteration of the bootstrap `while` loop: wrap `def_idx` to `0`
at the end of the recording (only when `frame_idx > 0`), then check the
marker entry; `None` as `def_idx` models an unset `start_idx`, whose
list indexing raises `TypeError`, caught by setting
`def_idx = start_idx = frame_idx`. -/
def buildIter (X : ExtFns) (mc : List MEntry) (frame_idx : Nat) (def_idx : Option Nat)
    (s : SOState) : StepRes :=
  match def_idx with
  | none => buildBody X mc frame_idx frame_idx {s with start_idx := some frame_idx}
  | some i0 =>
    let i := if i0 = mc.length ∧ 0 < frame_idx then 0 else i0
    match mc.get? i with
    | none => .err .indexError
    | some entry =>
      if entry = none then .brk s
      else buildBody X mc frame_idx i s

/-- The bootstrap `while not self.defined` loop with explicit fuel; when
the condition fails (the surface became defined through the
accumulator), the `else` clause devalidates the provisional cache. -/
def buildLoop (X : ExtFns) (mc : List MEntry) (frame_idx : Nat) :
    Nat → Option Nat → SOState → Except PyErr SOState
  | 0, _, _ => .error .nonTermination
  | fuel + 1, def_idx, s =>
    if definedS s then .ok (devalidateProvisional s)
    else
      match buildIter X mc frame_idx def_idx s with
      | .err e => .error e
      | .brk s2 => .ok s2
      | .close s2 => .ok s2
      | .next i s2 => buildLoop X mc frame_idx fuel (some i) s2

/-- `_build_definition_from_cache`: run the bootstrap loop starting at
`start_idx`.  The fuel bound `2 * length + 4` covers every terminating
run of the loop. -/
def build_definition_from_cache (X : ExtFns) (mc : List MEntry) (frame_idx : Nat)
    (s : SOState) : Except PyErr SOState :=
  buildLoop X mc frame_idx (2 * mc.length + 4) s.start_idx s

/-- The `try: location = self.location_cache[frame_idx]` step of
`update_location`: an absent cache raises `TypeError`, caught by setting
`location = False` and recalculating; a `False` entry is returned as is;
an out-of-range index raises `IndexError`, which is not caught. -/
def lookupOrRecalc (frame_idx : Nat) (mc : List MEntry) (s : SOState) :
    Except PyErr (Option Loc × SOState) :=
  match s.location_cache with
  | none => .ok (none, recalculate_location_cache frame_idx mc s)
  | some c =>
    match c.get? frame_idx with
    | none => .error .indexError
    | some none => .ok (none, s)
    | some (some loc) => .ok (some loc, s)

/-- `update_location`, with fuel bounding the recursion depth of the
on-demand path (`RecursionError` on exhaustion): bootstrap if undefined,
drain the filler, look up the cache, fall back to the synchronous
on-demand computation followed by one re-entry, and adopt the resulting
location. -/
def update_location (X : ExtFns) : Nat → Nat → List MEntry → SOState → Except PyErr SOState
  | 0, _, _, _ => .error .recursionError
  | fuel + 1, frame_idx, mc, s =>
    match (if definedS s then .ok s else build_definition_from_cache X mc frame_idx s :
        Except PyErr SOState) with
    | .error e => .error e
    | .ok s1 =>
      match fetch_from_location_cache_filler s1 with
      | .error e => .error e
      | .ok s2 =>
        match lookupOrRecalc frame_idx mc s2 with
        | .error e => .error e
        | .ok (some loc, s3) => .ok (adoptLoc loc s3)
        | .ok (none, s3) =>
          match mc.get? frame_idx with
          | none => .error .indexError
          | some none => .ok (adoptLoc notDetectedLoc s3)
          | some (some _) =>
            match update_location_cache X frame_idx mc s3 with
            | .error e => .error e
            | .ok s4 => update_location X fuel frame_idx mc s4

/-- `move_corner`: delegate the geometry update to the parent, reset the
cache to all-`False` of marker-cache length (without touching the filler
job), and synchronously recompute only the edited frame. -/
def move_corner (X : ExtFns) (frame_idx : Nat) (mc : List MEntry) (corner_idx : Nat)
    (new_pos : Nat × Nat) (s : SOState) : Except PyErr SOState :=
  let r := X.moveCornerCore s.reg_undist s.reg_dist corner_idx new_pos
  let s1 := {s with reg_undist := r.1, reg_dist := r.2,
                    location_cache := some (List.replicate mc.length none)}
  update_location_cache X frame_idx mc s1

/-- `add_marker`: change the registered marker set and discard the cache. -/
def add_marker (X : ExtFns) (marker_id : Nat) (s : SOState) : SOState :=
  let r := X.addMarkerCore marker_id s.reg_undist s.reg_dist
  {s with reg_undist := r.1, reg_dist := r.2, location_cache := none}

/-- `pop_marker`: remove a registered marker and discard the cache. -/
def pop_marker (X : ExtFns) (marker_id : Nat) (s : SOState) : SOState :=
  let r := X.popMarkerCore marker_id s.reg_undist s.reg_dist
  {s with reg_undist := r.1, reg_dist := r.2, location_cache := none}

/-- The per-frame body of the `map_section` loop: a detected entry maps
every event of the frame's enclosing time window through the stored
image-to-surface transform; anything else yields an empty sequence. -/
def mapFrame (X : ExtFns) (ts : List Nat) (ev : List Nat) (fi : Nat) (entry : Option Loc) :
    List Nat :=
  match entry with
  | some loc =>
    if loc.detected then
      (X.byTsWindow ev (X.enclosingWindow ts fi)).map (X.mapEvent loc.img_to_surf_trans)
    else []
  | none => []

/-- The `for frame_idx, location in enumerate(location_cache)` loop of
`map_section`, carrying the absolute frame index. -/
def mapFrames (X : ExtFns) (ts : List Nat) (ev : List Nat) : Nat → List (Option Loc) → List (List Nat)
  | _, [] => []
  | fi, e :: rest => mapFrame X ts ev fi e :: mapFrames X ts ev (fi + 1) rest

/-- `map_section`: slicing an absent cache raises `TypeError`, caught by
returning the empty list; otherwise every frame of the half-open section
is mapped in order. -/
def map_section (X : ExtFns) (sec : Nat × Nat) (ts : List Nat) (ev : List Nat) (s : SOState) :
    List (List Nat) :=
  match s.location_cache with
  | none => []
  | some cache => mapFrames X ts ev sec.1 ((cache.drop sec.1).take (sec.2 - sec.1))

/-- Modelled from the spec: the Python truthiness of one cache entry as
used by `sum(map(bool, section_cache))` — the `False` sentinel is falsy,
and the positivity of a computed location is its `detected` flag
(§4.4 "count of `Detected` entries", matching the source's
`_cache_positive_eval_fn`). -/
def entryBool : Option Loc → Bool
  | none => false
  | some l => l.detected

/-- `_cache_positive_eval_fn`: `(x is not False) and x.detected`. -/
def cache_positive_eval_fn (x : Option Loc) : Bool :=
  x.isSome && entryBool x

/-- `visible_count_in_section`: `sum(map(bool, self.location_cache[section]))`,
`0` when the cache is absent. -/
def visible_count_in_section (sec : Nat × Nat) (s : SOState) : Nat :=
  match s.location_cache with
  | none => 0
  | some cache =>
    (((cache.drop sec.1).take (sec.2 - sec.1)).map (fun e => if entryBool e then 1 else 0)).sum

/-- Modelled from the spec: the serialized snapshot of a
`Surface_Location` (`get_serializable_copy`). -/
structure SerLoc where
  s_detected : Bool
  s_t1 : Option Nat
  s_t2 : Option Nat
  s_t3 : Option Nat
  s_t4 : Option Nat
  s_num : Nat
deriving DecidableEq, Repr

/-- Modelled from the spec: `Surface_Location.get_serializable_copy`. -/
def serLoc (l : Loc) : SerLoc :=
  ⟨l.detected, l.dist_img_to_surf_trans, l.surf_to_dist_img_trans,
   l.img_to_surf_trans, l.surf_to_img_trans, l.num_detected_markers⟩

/-- Modelled from the spec: `Surface_Location.load_from_serializable_copy`. -/
def deserLoc (p : SerLoc) : Loc :=
  ⟨p.s_detected, p.s_t1, p.s_t2, p.s_t3, p.s_t4, p.s_num⟩

/-- The serialization loop of `save_to_dict`: a partial cache (any entry
still `False`) is never persisted — the whole cache collapses to the
null sentinel. -/
def serCacheEntries : List (Option Loc) → Option (List SerLoc)
  | [] => some []
  | none :: _ => none
  | some l :: rest => (serCacheEntries rest).map (fun r => serLoc l :: r)

/-- The persisted record produced by `save_to_dict` (cache part plus the
`added_in_player` sub-record). -/
structure SaveRecord where
  cache : Option (List SerLoc)
  start_idx : Option Nat
  observations_frame_idxs : List Nat
deriving DecidableEq, Repr

/-- `save_to_dict` (the parts owned by `Surface_Offline`). -/
def save_to_dict (s : SOState) : SaveRecord :=
  { cache := match s.location_cache with
      | none => none
      | some cache => serCacheEntries cache,
    start_idx := s.start_idx,
    observations_frame_idxs := s.observations_frame_idxs }

/-- A record handed to `_load_from_dict`: the outer `Option` of each
field models a missing key (`KeyError`); `cache = some none` models a
persisted null sentinel (whose `len` raises `TypeError`). -/
structure InitRecord where
  cache : Option (Option (List SerLoc))
  added_in_player : Option (Option Nat × List Nat)
deriving DecidableEq, Repr

/-- Re-reading a saved record: both keys are present. -/
def savedToInit (r : SaveRecord) : InitRecord :=
  { cache := some r.cache, added_in_player := some (r.start_idx, r.observations_frame_idxs) }

/-- `_load_from_dict` (the parts owned by `Surface_Offline`): a missing
or null cache yields an absent cache; missing bootstrap metadata means
the surface predates this component (`start_idx = 0`,
`build_up_status = 1.0`). -/
def load_from_dict (init : InitRecord) (s : SOState) : SOState :=
  let s1 := match init.cache with
    | none => {s with location_cache := none}
    | some none => {s with location_cache := none}
    | some (some l) => {s with location_cache := some (l.map (fun p => some (deserLoc p)))}
  match init.added_in_player with
  | none => {s1 with observations_frame_idxs := [], start_idx := some 0, build_up_status := 1}
  | some r => {s1 with observations_frame_idxs := r.2, start_idx := r.1}

/-- A cache entry holds a detected location. -/
def isDetected (e : Option Loc) : Prop := ∃ l, e = some l ∧ l.detected = true

instance : DecidablePred isDetected := fun e =>
  match e with
  | none => .isFalse (by simp [isDetected])
  | some l => decidable_of_iff (l.detected = true) (by simp [isDetected])

/-- The location reported while the on-demand fallback of
`update_location_cache` computes a single marker-cache entry: an empty
entry means no visible markers (`NotDetected`), otherwise
`Surface.locate` runs on the marker dict with the current
registrations. -/
def computeEntryLoc (X : ExtFns) (s : SOState) (l : List Marker) : Loc :=
  if l.isEmpty then notDetectedLoc else X.locate (mkDict l) s.reg_undist s.reg_dist

/-- Remaining iterations of the bootstrap loop until the closure branch
is reached from scan position `i` (including one wrap-around when the
scan starts at or after the current frame). -/
def bmeasure (mc : List MEntry) (frame_idx i : Nat) : Nat :=
  if i < frame_idx then frame_idx - i else (mc.length + 1 - i) + frame_idx

/-- A concrete collaborator assignment used to evaluate the embedding on
closed inputs: `locate` always detects, the definition accumulator never
completes the definition by itself, and pruning/registration updates
shift the opaque registration tokens so that they are observable. -/
def XC : ExtFns where
  locate := fun _ _ _ => ⟨true, some 1, some 2, some 3, some 4, 9⟩
  updateDefCore := fun _ _ ru rd _ => (ru + 1, rd, 0)
  pruneM := fun ru rd => (ru + 100, rd + 100)
  moveCornerCore := fun ru rd _ _ => (ru + 7, rd)
  addMarkerCore := fun _ ru rd => (ru + 11, rd)
  popMarkerCore := fun _ ru rd => (ru + 13, rd)
  enclosingWindow := fun _ i => (i, i + 1)
  byTsWindow := fun ev _ => ev
  mapEvent := fun _ e => e + 1

/-- The state of a freshly constructed `Surface_Offline` (undefined
surface, absent cache, no filler job, a subscriber installed). -/
def baseState : SOState where
  location_cache := none
  cache_seek_idx := 0
  location_cache_filler := none
  observations_frame_idxs := []
  on_surface_change := true
  start_idx := none
  build_up_status := 0
  reg_undist := 0
  reg_dist := 0
  current := notDetectedLoc
  change_fires := 0
  spawn_count := 0
  cancel_log := []

/-- A location with full transform payload, as produced by `XC.locate`. -/
def detLoc : Loc := ⟨true, some 1, some 2, some 3, some 4, 9⟩

/-- A sample marker. -/
def mkr : Marker := ⟨5, 7⟩

/-- A defined surface whose cache was devalidated (`None`) while a
background job with one pending result is still live: the exact
configuration in which the drain loop of
`_fetch_from_location_cache_filler` aborts. -/
def sC1 : SOState := {baseState with
  build_up_status := 1
  location_cache_filler := some ⟨0, [(0, notDetectedLoc)], false⟩}

/-- A four-frame marker cache, every entry computed (no markers). -/
def mc4 : List MEntry := [some [], some [], some [], some []]

/-- A four-frame marker cache whose entry 1 is still `False`. -/
def mcU : List MEntry := [some [], none, some [], some []]

/-- An undefined surface whose scan starts at frame 0 and that carries a
provisional (all-`False`) cache of four entries. -/
def sC2 : SOState := {baseState with
  start_idx := some 0
  location_cache := some [none, none, none, none]}

/-- A defined surface with absent cache and no filler job. -/
def sC4 : SOState := {baseState with build_up_status := 1}

/-- A live (non-completed) background job with one pending result. -/
def jb : Job := ⟨0, [(0, notDetectedLoc)], false⟩

/-- A defined surface with a two-entry all-`False` cache and the live
job `jb`. -/
def sC6 : SOState := {baseState with
  build_up_status := 1
  location_cache := some [none, none]
  location_cache_filler := some jb
  spawn_count := 1}

/-- A defined surface with a two-entry all-`False` cache and no filler. -/
def sC5 : SOState := {baseState with
  build_up_status := 1
  location_cache := some [none, none]}

/-- A surface with a fully resolved two-entry cache. -/
def sC7 : SOState := {baseState with
  location_cache := some [some detLoc, some notDetectedLoc]}

/-! ## Helper lemmas -/

theorem definedS_false {s : SOState} (h : ¬ 1 ≤ s.build_up_status) : definedS s = false := by
  simp [definedS, h]

theorem deser_serLoc (l : Loc) : deserLoc (serLoc l) = l := by cases l; rfl

theorem fetch_trivial (s : SOState)
    (h : ∀ j, s.location_cache_filler = some j → j.pending = [] ∧ j.completed = false) :
    fetch_from_location_cache_filler s = .ok s := by
  cases s with
  | mk lc seek fil obs osc si bus ru rd cur cf sc cl =>
    cases fil with
    | none => rfl
    | some j =>
      obtain ⟨hp, hc⟩ := h j rfl
      cases j with
      | mk jid jp jcomp =>
        simp only at hp hc
        subst hp; subst hc
        cases lc with
        | none => rfl
        | some c => rfl

theorem serCache_resolved (c : List (Option Loc)) (h : ∀ e ∈ c, e ≠ none) :
    ∃ sl, serCacheEntries c = some sl ∧ sl.map (fun p => some (deserLoc p)) = c := by
  induction c with
  | nil => exact ⟨[], rfl, rfl⟩
  | cons e rest ih =>
    cases e with
    | none => exact absurd rfl (h none (List.mem_cons_self _ _))
    | some l =>
      obtain ⟨sl, h1, h2⟩ := ih (fun x hx => h x (List.mem_cons_of_mem _ hx))
      exact ⟨serLoc l :: sl, by simp [serCacheEntries, h1], by simp [h2, deser_serLoc]⟩

theorem serCache_partial (c : List (Option Loc)) (h : none ∈ c) :
    serCacheEntries c = none := by
  induction c with
  | nil => cases h
  | cons e rest ih =>
    cases e with
    | none => rfl
    | some l =>
      have h2 : none ∈ rest := by
        rcases List.mem_cons.mp h with h1 | h1
        · cases h1
        · exact h1
      simp [serCacheEntries, ih h2]

theorem mapFrames_length (X : ExtFns) (ts ev : List Nat) (l : List (Option Loc)) :
    ∀ fi : Nat, (mapFrames X ts ev fi l).length = l.length := by
  induction l with
  | nil => intro fi; rfl
  | cons e rest ih => intro fi; simp [mapFrames, ih]

theorem mapFrames_get (X : ExtFns) (ts ev : List Nat) (l : List (Option Loc)) :
    ∀ fi k : Nat,
      (mapFrames X ts ev fi l).get? k = (l.get? k).map (fun e => mapFrame X ts ev (fi + k) e) := by
  induction l with
  | nil => intro fi k; cases k <;> rfl
  | cons e rest ih =>
    intro fi k
    cases k with
    | zero => rfl
    | succ k =>
      have h3 : fi + 1 + k = fi + (k + 1) := by omega
      show (mapFrames X ts ev (fi + 1) rest).get? k =
        (rest.get? k).map (fun e => mapFrame X ts ev (fi + (k + 1)) e)
      rw [ih (fi + 1) k, h3]

theorem entryBool_eq_isDetected (e : Option Loc) : entryBool e = decide (isDetected e) := by
  cases e with
  | none => simp [entryBool, isDetected]
  | some l => cases hl : l.detected <;> simp [entryBool, isDetected, hl]

theorem sum_indicator_countP (l : List (Option Loc)) :
    (l.map (fun e => if entryBool e then 1 else 0)).sum =
      l.countP (fun e => decide (isDetected e)) := by
  induction l with
  | nil => rfl
  | cons e rest ih =>
    rw [List.map_cons, List.sum_cons, List.countP_cons, ih, entryBool_eq_isDetected]
    cases h : decide (isDetected e) <;> simp [h, Nat.add_comm]

/-! ## Claims -/

/-- Claim C1: the claim states that `update_location` never raises to
its caller, in particular not when the drain loop aborts because the
location cache is absent.  The code violates this: in the state `sC1`
(defined surface, absent cache, a live filler job with one pending
result) the drain's except-branch nulls the filler handle and the
subsequent `completed` access raises `AttributeError`, which propagates
out of `update_location` to its caller. -/
theorem update_location_drain_abort_raises :
    update_location XC 5 0 [some []] sC1 = .error .attributeError := by rfl

/-- Claim C3 (amended): whenever the bootstrap scan, while the surface
is still undefined, stands at a position whose marker-cache entry is
itself `Unknown`, the scan aborts with the definition still
non-terminal, and the object is left entirely unchanged: in particular
the location cache is NOT discarded and the change callback does NOT
fire.  (The devalidation described by the original claim instead
happens when the `while` condition fails, i.e. when the surface became
defined through the accumulator mid-scan.) -/
theorem bootstrap_unknown_entry_aborts_unchanged (X : ExtFns) (mc : List MEntry)
    (frame_idx fuel i : Nat) (s : SOState)
    (hbus : ¬ 1 ≤ s.build_up_status) (hi : i < mc.length) (hu : mc.get? i = some none) :
    buildLoop X mc frame_idx (fuel + 1) (some i) s = .ok s := by
  have hw : ¬ (i = mc.length ∧ 0 < frame_idx) := by omega
  rw [List.get?_eq_getElem?] at hu
  simp [buildLoop, definedS_false hbus, buildIter, hw, hu]

/-- Claim C3, counterexample to the original wording: in a run of
`_build_definition_from_cache` that hits an `Unknown` marker entry
(frame 1 of `mcU`) while still undefined, the provisional location
cache survives (`isSome = true`), the change callback does not fire
(`change_fires = 0`) and the definition stays non-terminal — the claim
said the cache is set to `None` and the callback fires. -/
theorem bootstrap_unknown_abort_keeps_cache :
    (build_definition_from_cache XC mcU 2 sC2).map
      (fun t => (t.location_cache.isSome, t.change_fires, definedS t, t.observations_frame_idxs)) =
      .ok (true, 0, false, [0]) := by rfl

/-- Witness for the amended C3 theorem at a concrete scan position. -/
theorem bootstrap_unknown_entry_witness :
    (¬ 1 ≤ sC2.build_up_status) ∧ 1 < mcU.length ∧ mcU.get? 1 = some none ∧
      buildLoop XC mcU 2 7 (some 1) sC2 = .ok sC2 :=
  ⟨by decide, by decide, by decide,
   bootstrap_unknown_entry_aborts_unchanged XC mcU 2 6 1 sC2 (by decide) (by decide) (by decide)⟩

/-- Claim C6, counterexample to the original wording: `move_corner`
during an active background job does NOT cancel that job — the filler
handle survives untouched (with its pending result still queued) and
nothing is appended to the cancellation log. -/
theorem move_corner_does_not_cancel_job :
    (move_corner XC 0 [some [mkr], none] 2 (3, 4) sC6).map
      (fun t => (t.location_cache_filler, t.cancel_log, t.spawn_count)) =
      .ok (some jb, [], 1) := by rfl

/-- Claim C6 (amended): `move_corner` while a background job is active
leaves that job untouched (it is neither cancelled nor replaced),
resets the location cache to all-`Unknown` of marker-source length
without starting any new background job, and synchronously recomputes
only the edited `frame_idx`, so that afterwards exactly that one cache
entry is resolved; no new background job starts until the next normal
`update_location` call. -/
theorem move_corner_resets_without_new_job (X : ExtFns) (frame_idx : Nat) (mc : List MEntry)
    (ci : Nat) (np : Nat × Nat) (s : SOState) (hlen : frame_idx < mc.length) :
    ∃ s2 loc, move_corner X frame_idx mc ci np s = .ok s2 ∧
      s2.location_cache_filler = s.location_cache_filler ∧
      s2.cancel_log = s.cancel_log ∧
      s2.spawn_count = s.spawn_count ∧
      s2.location_cache = some ((List.replicate mc.length none).set frame_idx (some loc)) ∧
      (mc.get? frame_idx = some none → loc = notDetectedLoc) ∧
      (∀ l, mc.get? frame_idx = some (some l) →
        loc = if l.isEmpty then notDetectedLoc
          else X.locate (mkDict l) (X.moveCornerCore s.reg_undist s.reg_dist ci np).1
            (X.moveCornerCore s.reg_undist s.reg_dist ci np).2) := by
  obtain ⟨entry, he⟩ : ∃ e, mc.get? frame_idx = some e := ⟨_, List.get?_eq_get hlen⟩
  cases entry with
  | none =>
    refine ⟨{s with
        reg_undist := (X.moveCornerCore s.reg_undist s.reg_dist ci np).1
        reg_dist := (X.moveCornerCore s.reg_undist s.reg_dist ci np).2
        location_cache :=
          some ((List.replicate mc.length none).set frame_idx (some notDetectedLoc))},
      notDetectedLoc, ?_, rfl, rfl, rfl, rfl, fun _ => rfl, fun l hl => ?_⟩
    · simp only [move_corner, update_location_cache, he, List.length_replicate]
      rw [if_pos hlen]
    · rw [he] at hl; cases hl
  | some l =>
    refine ⟨{s with
        reg_undist := (X.moveCornerCore s.reg_undist s.reg_dist ci np).1
        reg_dist := (X.moveCornerCore s.reg_undist s.reg_dist ci np).2
        location_cache :=
          some ((List.replicate mc.length none).set frame_idx
            (some (if l.isEmpty then notDetectedLoc
              else X.locate (mkDict l) (X.moveCornerCore s.reg_undist s.reg_dist ci np).1
                (X.moveCornerCore s.reg_undist s.reg_dist ci np).2)))},
      _, ?_, rfl, rfl, rfl, rfl, fun hn => ?_, fun l2 hl2 => ?_⟩
    · simp only [move_corner, update_location_cache, he, List.length_replicate]
      rw [if_pos hlen]
    · rw [he] at hn; cases hn
    · rw [he] at hl2
      cases hl2
      rfl

/-- Witness for the amended C6 theorem at a concrete input. -/
theorem move_corner_resets_without_new_job_witness :
    0 < ([some [mkr], none] : List MEntry).length ∧
    ∃ s2 loc, move_corner XC 0 [some [mkr], none] 2 (3, 4) sC6 = .ok s2 ∧
      s2.location_cache_filler = sC6.location_cache_filler ∧
      s2.cancel_log = sC6.cancel_log ∧
      s2.spawn_count = sC6.spawn_count ∧
      s2.location_cache =
        some ((List.replicate ([some [mkr], none] : List MEntry).length none).set 0 (some loc)) ∧
      (([some [mkr], none] : List MEntry).get? 0 = some none → loc = notDetectedLoc) ∧
      (∀ l, ([some [mkr], none] : List MEntry).get? 0 = some (some l) →
        loc = if l.isEmpty then notDetectedLoc
          else XC.locate (mkDict l) (XC.moveCornerCore sC6.reg_undist sC6.reg_dist 2 (3, 4)).1
            (XC.moveCornerCore sC6.reg_undist sC6.reg_dist 2 (3, 4)).2) :=
  ⟨by decide, move_corner_resets_without_new_job XC 0 [some [mkr], none] 2 (3, 4) sC6 (by decide)⟩

/-- Claim C10: calling `move_corner` at a `frame_idx` whose
marker-source entry is still `Unknown` (the `False` sentinel) writes a
`NotDetected` state into the freshly reset cache at that index — the
single-entry recompute treats the falsy `Unknown` marker entry the same
as an empty (no-markers) entry, so the entry does not stay `Unknown`. -/
theorem move_corner_unknown_marker_writes_not_detected (X : ExtFns) (frame_idx : Nat)
    (mc : List MEntry) (ci : Nat) (np : Nat × Nat) (s : SOState)
    (hlen : frame_idx < mc.length) (hu : mc.get? frame_idx = some none) :
    ∃ s2, move_corner X frame_idx mc ci np s = .ok s2 ∧
      s2.location_cache =
        some ((List.replicate mc.length none).set frame_idx (some notDetectedLoc)) := by
  refine ⟨{s with
      reg_undist := (X.moveCornerCore s.reg_undist s.reg_dist ci np).1
      reg_dist := (X.moveCornerCore s.reg_undist s.reg_dist ci np).2
      location_cache :=
        some ((List.replicate mc.length none).set frame_idx (some notDetectedLoc))},
    ?_, rfl⟩
  simp only [move_corner, update_location_cache, hu, List.length_replicate]
  rw [if_pos hlen]

/-- Witness for the C10 theorem at a concrete input. -/
theorem move_corner_unknown_marker_witness :
    1 < ([some [mkr], none] : List MEntry).length ∧
    ([some [mkr], none] : List MEntry).get? 1 = some none ∧
    ∃ s2, move_corner XC 1 [some [mkr], none] 2 (3, 4) sC6 = .ok s2 ∧
      s2.location_cache =
        some ((List.replicate ([some [mkr], none] : List MEntry).length none).set 1
          (some notDetectedLoc)) :=
  ⟨by decide, by decide,
   move_corner_unknown_marker_writes_not_detected XC 1 [some [mkr], none] 2 (3, 4) sC6
     (by decide) (by decide)⟩

/-- Claim C9: `visible_count_in_section` returns exactly the number of
cache entries in the half-open range whose state is detected (`Unknown`
and `NotDetected` entries contribute nothing), and `0` when the
location cache is absent.  (The truthiness of a computed location entry
is modelled from the spec as its `detected` flag.) -/
theorem visible_count_counts_detected (a b : Nat) (s : SOState) :
    (s.location_cache = none → visible_count_in_section (a, b) s = 0) ∧
    (∀ c, s.location_cache = some c →
      visible_count_in_section (a, b) s =
        ((c.drop a).take (b - a)).countP (fun e => decide (isDetected e))) := by
  constructor
  · intro h; simp [visible_count_in_section, h]
  · intro c h
    simp only [visible_count_in_section, h]
    exact sum_indicator_countP _

/-- Witness for the C9 theorem on a concrete cache. -/
theorem visible_count_witness :
    sC7.location_cache = some [some detLoc, some notDetectedLoc] ∧
    visible_count_in_section (0, 2) sC7 =
      (([some detLoc, some notDetectedLoc].drop 0).take (2 - 0)).countP
        (fun e => decide (isDetected e)) :=
  ⟨rfl, (visible_count_counts_detected 0 2 sC7).2 _ rfl⟩

/-- Claim C7: `save_to_dict` followed by `_load_from_dict` round-trips
a fully resolved cache (no entry `Unknown`) to an equal cache; if the
cache is absent or any entry is still `Unknown` at save time, the null
cache sentinel is persisted instead of a partial cache, and loading
that record yields an absent cache. -/
theorem save_load_round_trip (s s0 : SOState) :
    (∀ c, s.location_cache = some c → (∀ e ∈ c, e ≠ none) →
      (load_from_dict (savedToInit (save_to_dict s)) s0).location_cache = some c) ∧
    ((s.location_cache = none ∨ ∃ c, s.location_cache = some c ∧ none ∈ c) →
      (save_to_dict s).cache = none ∧
      (load_from_dict (savedToInit (save_to_dict s)) s0).location_cache = none) := by
  constructor
  · intro c hc hall
    obtain ⟨sl, h1, h2⟩ := serCache_resolved c hall
    simp [load_from_dict, savedToInit, save_to_dict, hc, h1, h2]
  · intro h
    rcases h with h | ⟨c, hc, hmem⟩
    · simp [load_from_dict, savedToInit, save_to_dict, h]
    · simp [load_from_dict, savedToInit, save_to_dict, hc, serCache_partial c hmem]

/-- Witness for the C7 theorem on a concrete fully resolved cache. -/
theorem save_load_round_trip_witness :
    sC7.location_cache = some [some detLoc, some notDetectedLoc] ∧
    (load_from_dict (savedToInit (save_to_dict sC7)) baseState).location_cache =
      some [some detLoc, some notDetectedLoc] :=
  ⟨rfl, (save_load_round_trip sC7 baseState).1 _ rfl (by decide)⟩

/-- Claim C8: `map_section` on an absent cache returns the empty result
immediately and never raises; when a cache exists, the result has one
entry per frame of the requested half-open range, positionally aligned
with the range: a frame whose cache entry is detected yields its events
(queried through the frame's enclosing time window) mapped through that
frame's stored image-to-surface transform, and every other frame yields
an empty sequence. -/
theorem map_section_alignment (X : ExtFns) (ts ev : List Nat) (a b : Nat) (s : SOState) :
    (s.location_cache = none → map_section X (a, b) ts ev s = []) ∧
    (∀ c, s.location_cache = some c → b ≤ c.length →
      (map_section X (a, b) ts ev s).length = b - a ∧
      ∀ k, k < b - a →
        (∀ loc, c.get? (a + k) = some (some loc) → loc.detected = true →
          (map_section X (a, b) ts ev s).get? k =
            some ((X.byTsWindow ev (X.enclosingWindow ts (a + k))).map
              (X.mapEvent loc.img_to_surf_trans))) ∧
        (∀ loc, c.get? (a + k) = some (some loc) → loc.detected = false →
          (map_section X (a, b) ts ev s).get? k = some []) ∧
        (c.get? (a + k) = some none → (map_section X (a, b) ts ev s).get? k = some [])) := by
  constructor
  · intro h; simp [map_section, h]
  · intro c hc hb
    have hms : map_section X (a, b) ts ev s = mapFrames X ts ev a ((c.drop a).take (b - a)) := by
      simp [map_section, hc]
    constructor
    · rw [hms, mapFrames_length]
      simp [List.length_take, List.length_drop]
      omega
    · intro k hk
      have hslice : ((c.drop a).take (b - a)).get? k = c.get? (a + k) := by
        rw [List.get?_take hk, List.get?_drop]
      refine ⟨?_, ?_, ?_⟩
      · intro loc hloc hdet
        rw [hms, mapFrames_get, hslice, hloc]
        simp [mapFrame, hdet]
      · intro loc hloc hdet
        rw [hms, mapFrames_get, hslice, hloc]
        simp [mapFrame, hdet]
      · intro hloc
        rw [hms, mapFrames_get, hslice, hloc]
        simp [mapFrame]

/-- Witness for the C8 theorem on a concrete cache. -/
theorem map_section_alignment_witness :
    sC7.location_cache = some [some detLoc, some notDetectedLoc] ∧ 2 ≤ 2 ∧
    (map_section XC (0, 2) [1, 2, 3] [10, 20] sC7).length = 2 - 0 :=
  ⟨rfl, by decide,
   ((map_section_alignment XC [1, 2, 3] [10, 20] 0 2 sC7).2 _ rfl (by decide)).1⟩

/-- One unfolding of `update_location` for a defined surface whose
filler drain is a no-op: the call reduces to cache lookup plus the
on-demand fallback. -/
theorem update_location_defined_step (X : ExtFns) (fuel frame_idx : Nat) (mc : List MEntry)
    (s : SOState) (hds : definedS s = true)
    (hfd : fetch_from_location_cache_filler s = .ok s) :
    update_location X (fuel + 1) frame_idx mc s =
      match lookupOrRecalc frame_idx mc s with
      | .error e => .error e
      | .ok (some loc, s3) => .ok (adoptLoc loc s3)
      | .ok (none, s3) =>
        match mc.get? frame_idx with
        | none => .error .indexError
        | some none => .ok (adoptLoc notDetectedLoc s3)
        | some (some _) =>
          match update_location_cache X frame_idx mc s3 with
          | .error e => .error e
          | .ok s4 => update_location X fuel frame_idx mc s4 := by
  simp only [update_location, hds, if_true]
  rw [hfd]

/-- A defined surface whose cache entry at `frame_idx` is already
computed adopts that entry. -/
theorem update_location_hit (X : ExtFns) (fuel frame_idx : Nat) (mc : List MEntry) (s : SOState)
    (c2 : List (Option Loc)) (loc : Loc)
    (hdef : 1 ≤ s.build_up_status)
    (hcache : s.location_cache = some c2)
    (hentry : c2.get? frame_idx = some (some loc))
    (hfill : ∀ j, s.location_cache_filler = some j → j.pending = [] ∧ j.completed = false) :
    update_location X (fuel + 1) frame_idx mc s = .ok (adoptLoc loc s) := by
  have hds : definedS s = true := by simp [definedS, hdef]
  rw [update_location_defined_step X fuel frame_idx mc s hds (fetch_trivial s hfill)]
  simp only [lookupOrRecalc, hcache, hentry]

/-- Claim C5: when `update_location` finds the cache entry at
`frame_idx` still `Unknown`: if the marker source has data for that
index, the location is computed synchronously (via `locate` on the
marker dict when markers are present; `NotDetected` for an empty
no-markers entry, which is what `locate` yields without visible
markers), force-written into the cache, and the lookup is re-entered so
the call adopts the computed state; if the marker source is also not
yet ready, the call reports a transient `NotDetected` and writes
nothing, so the entry at `frame_idx` stays `Unknown` for a later
revisit.  No background job is started or replaced either way. -/
theorem unknown_entry_on_demand_or_transient (X : ExtFns) (fuel frame_idx : Nat)
    (mc : List MEntry) (s : SOState) (c : List (Option Loc))
    (hdef : 1 ≤ s.build_up_status)
    (hcache : s.location_cache = some c)
    (hentry : c.get? frame_idx = some none)
    (hmc : frame_idx < mc.length)
    (hfill : ∀ j, s.location_cache_filler = some j → j.pending = [] ∧ j.completed = false) :
    ∃ s2, update_location X (fuel + 2) frame_idx mc s = .ok s2 ∧
      s2.spawn_count = s.spawn_count ∧
      s2.location_cache_filler = s.location_cache_filler ∧
      (mc.get? frame_idx = some none →
        s2.current = notDetectedLoc ∧ s2.location_cache = some c) ∧
      (∀ l, mc.get? frame_idx = some (some l) →
        s2.current = computeEntryLoc X s l ∧
        s2.location_cache = some (c.set frame_idx (some (computeEntryLoc X s l)))) := by
  have hds : definedS s = true := by simp [definedS, hdef]
  have hfd := fetch_trivial s hfill
  have hcl : frame_idx < c.length := by
    by_contra hcon
    have h2 : c.get? frame_idx = none := List.get?_eq_none.mpr (Nat.le_of_not_lt hcon)
    rw [hentry] at h2; cases h2
  obtain ⟨entry, hm⟩ : ∃ e, mc.get? frame_idx = some e := ⟨_, List.get?_eq_get hmc⟩
  cases entry with
  | none =>
    refine ⟨adoptLoc notDetectedLoc s, ?_, rfl, rfl, fun _ => ⟨rfl, hcache⟩, fun l hl => ?_⟩
    · rw [update_location_defined_step X (fuel + 1) frame_idx mc s hds hfd]
      simp only [lookupOrRecalc, hcache, hentry, hm]
    · rw [hm] at hl; cases hl
  | some l =>
    refine ⟨adoptLoc (computeEntryLoc X s l)
        {s with location_cache := some (c.set frame_idx (some (computeEntryLoc X s l)))},
      ?_, rfl, rfl, fun hn => ?_, fun l2 hl2 => ?_⟩
    · rw [update_location_defined_step X (fuel + 1) frame_idx mc s hds hfd]
      simp only [lookupOrRecalc, hcache, hentry, hm, update_location_cache, computeEntryLoc]
      rw [if_pos hcl]
      exact update_location_hit X fuel frame_idx mc _ _ _ hdef rfl
        (List.get?_set_eq_of_lt _ hcl) (fun j hj => hfill j hj)
    · rw [hm] at hn; cases hn
    · rw [hm] at hl2; cases hl2; exact ⟨rfl, rfl⟩

/-- Witness for the C5 theorem at a concrete input (both the on-demand
and the transient conclusion are obtained; the marker entry at index 0
is present, so the on-demand branch applies). -/
theorem unknown_entry_witness :
    1 ≤ sC5.build_up_status ∧ sC5.location_cache = some [none, none] ∧
    ([none, none] : List (Option Loc)).get? 0 = some none ∧
    0 < ([some [mkr], none] : List MEntry).length ∧
    ∃ s2, update_location XC (1 + 2) 0 [some [mkr], none] sC5 = .ok s2 ∧
      s2.spawn_count = sC5.spawn_count ∧
      s2.location_cache_filler = sC5.location_cache_filler ∧
      (([some [mkr], none] : List MEntry).get? 0 = some none →
        s2.current = notDetectedLoc ∧ s2.location_cache = some [none, none]) ∧
      (∀ l, ([some [mkr], none] : List MEntry).get? 0 = some (some l) →
        s2.current = computeEntryLoc XC sC5 l ∧
        s2.location_cache = some (([none, none] : List (Option Loc)).set 0
          (some (computeEntryLoc XC sC5 l)))) :=
  ⟨by decide, rfl, rfl, by decide,
   unknown_entry_on_demand_or_transient XC 1 0 [some [mkr], none] sC5 [none, none]
     (by decide) rfl rfl (by decide) (fun j hj => by simp [sC5, baseState] at hj)⟩

/-- Claim C4, counterexample to the original wording: a call that finds
the cache absent while the marker source has data at `frame_idx` does
NOT report `NotDetected` for this call — it computes the location
synchronously (here a detection) and adopts it in the same call. -/
theorem cache_absent_adopts_computed_state :
    (update_location XC 3 0 [some [mkr]] sC4).map (fun t => t.current.detected) = .ok true := by
  rfl

/-- Claim C4 (amended): `add_marker` and `pop_marker` always leave the
cache absent, and a call to `update_location` that finds the location
cache absent resets the cache to all-`Unknown` with length equal to the
marker-source length, sets the shared seek cursor to `frame_idx`, and
starts exactly one new background job after cancelling any stale one.
It reports `NotDetected` for this call only when the marker source is
itself not yet computed at `frame_idx`; otherwise it computes
`frame_idx` synchronously, force-writes the result, and adopts that
computed state in the same call. -/
theorem cache_absent_resets_and_starts_one_job :
    (∀ (X : ExtFns) (mid : Nat) (s : SOState), (add_marker X mid s).location_cache = none) ∧
    (∀ (X : ExtFns) (mid : Nat) (s : SOState), (pop_marker X mid s).location_cache = none) ∧
    ∀ (X : ExtFns) (fuel frame_idx : Nat) (mc : List MEntry) (s : SOState),
      1 ≤ s.build_up_status → s.location_cache = none → frame_idx < mc.length →
      (∀ j, s.location_cache_filler = some j → j.pending = [] ∧ j.completed = false) →
      ∃ s2, update_location X (fuel + 2) frame_idx mc s = .ok s2 ∧
        s2.spawn_count = s.spawn_count + 1 ∧
        s2.cache_seek_idx = frame_idx ∧
        s2.location_cache_filler = some ⟨s.spawn_count, [], false⟩ ∧
        (∀ j, s.location_cache_filler = some j → s2.cancel_log = s.cancel_log ++ [j.id]) ∧
        (s.location_cache_filler = none → s2.cancel_log = s.cancel_log) ∧
        (∃ c2, s2.location_cache = some c2 ∧ c2.length = mc.length) ∧
        (mc.get? frame_idx = some none →
          s2.current = notDetectedLoc ∧
          s2.location_cache = some (List.replicate mc.length none)) ∧
        (∀ l, mc.get? frame_idx = some (some l) →
          s2.current = computeEntryLoc X s l ∧
          s2.location_cache =
            some ((List.replicate mc.length none).set frame_idx
              (some (computeEntryLoc X s l)))) := by
  refine ⟨fun X mid s => rfl, fun X mid s => rfl, ?_⟩
  intro X fuel frame_idx mc s hdef hcache hmc hfill
  have hds : definedS s = true := by simp [definedS, hdef]
  have hfd := fetch_trivial s hfill
  obtain ⟨clog, hrec, hclog1, hclog2⟩ :
      ∃ clog, recalculate_location_cache frame_idx mc s =
        {s with cache_seek_idx := frame_idx
                location_cache := some (List.replicate mc.length none)
                location_cache_filler := some ⟨s.spawn_count, [], false⟩
                spawn_count := s.spawn_count + 1
                cancel_log := clog} ∧
        (∀ j, s.location_cache_filler = some j → clog = s.cancel_log ++ [j.id]) ∧
        (s.location_cache_filler = none → clog = s.cancel_log) := by
    cases hfil : s.location_cache_filler with
    | none =>
      refine ⟨s.cancel_log, ?_, ?_, ?_⟩
      · simp [recalculate_location_cache, hfil]
      · intro j hj; cases hj
      · intro _; rfl
    | some j =>
      refine ⟨s.cancel_log ++ [j.id], ?_, ?_, ?_⟩
      · simp [recalculate_location_cache, hfil]
      · intro j2 hj2; cases hj2; rfl
      · intro hn; cases hn
  obtain ⟨entry, hm⟩ : ∃ e, mc.get? frame_idx = some e := ⟨_, List.get?_eq_get hmc⟩
  cases entry with
  | none =>
    refine ⟨adoptLoc notDetectedLoc
        {s with cache_seek_idx := frame_idx
                location_cache := some (List.replicate mc.length none)
                location_cache_filler := some ⟨s.spawn_count, [], false⟩
                spawn_count := s.spawn_count + 1
                cancel_log := clog},
      ?_, rfl, rfl, rfl, ?_, ?_, ⟨List.replicate mc.length none, rfl, by simp⟩, ?_, ?_⟩
    · rw [update_location_defined_step X (fuel + 1) frame_idx mc s hds hfd]
      simp only [lookupOrRecalc, hcache, hrec, hm]
    · exact fun j hj => hclog1 j hj
    · exact fun hn => hclog2 hn
    · exact fun _ => ⟨rfl, rfl⟩
    · intro l hl; rw [hm] at hl; cases hl
  | some l =>
    refine ⟨adoptLoc (computeEntryLoc X s l)
        {s with cache_seek_idx := frame_idx
                location_cache :=
                  some ((List.replicate mc.length none).set frame_idx
                    (some (computeEntryLoc X s l)))
                location_cache_filler := some ⟨s.spawn_count, [], false⟩
                spawn_count := s.spawn_count + 1
                cancel_log := clog},
      ?_, rfl, rfl, rfl, ?_, ?_,
      ⟨(List.replicate mc.length none).set frame_idx (some (computeEntryLoc X s l)), rfl,
        by simp⟩, ?_, ?_⟩
    · rw [update_location_defined_step X (fuel + 1) frame_idx mc s hds hfd]
      simp only [lookupOrRecalc, hcache, hrec, hm, update_location_cache, List.length_replicate,
        computeEntryLoc]
      rw [if_pos hmc]
      exact update_location_hit X fuel frame_idx mc _ _ _ hdef rfl
        (List.get?_set_eq_of_lt _ (by simpa using hmc)) (fun j hj => by cases hj; exact ⟨rfl, rfl⟩)
    · exact fun j hj => hclog1 j hj
    · exact fun hn => hclog2 hn
    · intro hn; rw [hm] at hn; cases hn
    · intro l2 hl2; rw [hm] at hl2; cases hl2; exact ⟨rfl, rfl⟩

/-- Witness for the amended C4 theorem at a concrete input. -/
theorem cache_absent_witness :
    1 ≤ sC4.build_up_status ∧ sC4.location_cache = none ∧
    0 < ([some [mkr]] : List MEntry).length ∧
    ∃ s2, update_location XC (1 + 2) 0 [some [mkr]] sC4 = .ok s2 ∧
      s2.spawn_count = sC4.spawn_count + 1 ∧
      s2.cache_seek_idx = 0 ∧
      s2.location_cache_filler = some ⟨sC4.spawn_count, [], false⟩ ∧
      (∀ j, sC4.location_cache_filler = some j → s2.cancel_log = sC4.cancel_log ++ [j.id]) ∧
      (sC4.location_cache_filler = none → s2.cancel_log = sC4.cancel_log) ∧
      (∃ c2, s2.location_cache = some c2 ∧ c2.length = ([some [mkr]] : List MEntry).length) ∧
      (([some [mkr]] : List MEntry).get? 0 = some none →
        s2.current = notDetectedLoc ∧
        s2.location_cache = some (List.replicate ([some [mkr]] : List MEntry).length none)) ∧
      (∀ l, ([some [mkr]] : List MEntry).get? 0 = some (some l) →
        s2.current = computeEntryLoc XC sC4 l ∧
        s2.location_cache =
          some ((List.replicate ([some [mkr]] : List MEntry).length none).set 0
            (some (computeEntryLoc XC sC4 l)))) :=
  ⟨by decide, rfl, by decide,
   cache_absent_resets_and_starts_one_job.2.2 XC 1 0 [some [mkr]] sC4 (by decide) rfl
     (by decide) (fun j hj => by simp [sC4, baseState] at hj)⟩

/-- One iteration of the bootstrap loop at a resolved position whose
marker entry is known: feed the accumulator (unless the index already
contributed) and either close the loop or advance. -/
theorem buildLoop_step (X : ExtFns) (mc : List MEntry) (frame_idx f i i2 : Nat)
    (s : SOState) (l : List Marker)
    (hbus : ¬ 1 ≤ s.build_up_status)
    (hi2 : (if i = mc.length ∧ 0 < frame_idx then 0 else i) = i2)
    (he : mc.get? i2 = some (some l)) :
    buildLoop X mc frame_idx (f + 1) (some i) s =
      (if i2 + 1 = frame_idx
        then .ok (closeDefinition X
          (if i2 ∈ s.observations_frame_idxs then s else updateDefinition X i2 l s))
        else buildLoop X mc frame_idx f (some (i2 + 1))
          (if i2 ∈ s.observations_frame_idxs then s else updateDefinition X i2 l s)) := by
  simp only [buildLoop, definedS_false hbus, Bool.false_eq_true, if_false, buildIter, hi2, he,
    buildBody]
  by_cases hmem : i2 ∈ s.observations_frame_idxs <;> by_cases hcl : i2 + 1 = frame_idx <;>
    simp [hmem, hcl]

theorem bmeasure_lt (mc : List MEntry) (frame_idx i : Nat) (h : i < frame_idx) :
    bmeasure mc frame_idx i = frame_idx - i := by simp [bmeasure, h]

theorem bmeasure_ge (mc : List MEntry) (frame_idx i : Nat) (h : ¬ i < frame_idx) :
    bmeasure mc frame_idx i = (mc.length + 1 - i) + frame_idx := by simp [bmeasure, h]

/-- When every marker entry is known and the accumulator never
completes the definition by itself, the bootstrap loop started at any
admissible position runs (wrapping at the end of the recording when
needed) until the closure branch at `frame_idx - 1` and closes:
`build_up_status = 1`, registrations pruned, cache and callback
untouched. -/
theorem buildLoop_closes (X : ExtFns) (mc : List MEntry) (frame_idx : Nat)
    (hall : ∀ e ∈ mc, e ≠ none)
    (hacc : ∀ i d ru rd b, (X.updateDefCore i d ru rd b).2.2 < 1) :
    ∀ fuel i s, ¬ 1 ≤ s.build_up_status →
      (i < frame_idx ∨ (0 < frame_idx ∧ frame_idx ≤ i)) →
      i ≤ mc.length → frame_idx ≤ mc.length →
      bmeasure mc frame_idx i < fuel →
      ∃ s2, buildLoop X mc frame_idx fuel (some i) s = .ok s2 ∧
        s2.build_up_status = 1 ∧
        s2.location_cache = s.location_cache ∧
        s2.change_fires = s.change_fires ∧
        ∃ ru rd, (s2.reg_undist, s2.reg_dist) = X.pruneM ru rd := by
  intro fuel
  induction fuel with
  | zero => intro i s _ _ _ _ hm; exact absurd hm (by omega)
  | succ f ih =>
    intro i s hbus hcase hi hf hm
    have getl : ∀ k, k < mc.length → ∃ l2, mc.get? k = some (some l2) := by
      intro k hk
      obtain ⟨e, he⟩ : ∃ e, mc.get? k = some e := ⟨_, List.get?_eq_get hk⟩
      cases e with
      | none => exact absurd rfl (hall none (List.get?_mem he))
      | some l2 => exact ⟨l2, he⟩
    rcases hcase with hlt | ⟨hfi0, hge⟩
    · have hilen : i < mc.length := by omega
      obtain ⟨l, he⟩ := getl i hilen
      rw [buildLoop_step X mc frame_idx f i i s l hbus (by simp; omega) he]
      set st := if i ∈ s.observations_frame_idxs then s else updateDefinition X i l s with hst
      have hstbus : ¬ 1 ≤ st.build_up_status := by
        rw [hst]; split
        · exact hbus
        · exact not_le.mpr (hacc i (mkDict l) s.reg_undist s.reg_dist s.build_up_status)
      have hstc : st.location_cache = s.location_cache := by rw [hst]; split <;> rfl
      have hstf : st.change_fires = s.change_fires := by rw [hst]; split <;> rfl
      by_cases hcl : i + 1 = frame_idx
      · rw [if_pos hcl]
        exact ⟨closeDefinition X st, rfl, rfl, hstc, hstf, st.reg_undist, st.reg_dist, rfl⟩
      · rw [if_neg hcl]
        have hm2 : bmeasure mc frame_idx (i + 1) < f := by
          rw [bmeasure_lt mc frame_idx i hlt] at hm
          rw [bmeasure_lt mc frame_idx (i + 1) (by omega)]
          omega
        obtain ⟨s2, h1, h2, h3, h4, h5⟩ :=
          ih (i + 1) st hstbus (by omega) (by omega) hf hm2
        exact ⟨s2, h1, h2, h3.trans hstc, h4.trans hstf, h5⟩
    · by_cases hiN : i = mc.length
      · have h0 : 0 < mc.length := by omega
        obtain ⟨l, he⟩ := getl 0 h0
        rw [buildLoop_step X mc frame_idx f i 0 s l hbus (by simp [hiN, hfi0]) he]
        set st := if 0 ∈ s.observations_frame_idxs then s else updateDefinition X 0 l s with hst
        have hstbus : ¬ 1 ≤ st.build_up_status := by
          rw [hst]; split
          · exact hbus
          · exact not_le.mpr (hacc 0 (mkDict l) s.reg_undist s.reg_dist s.build_up_status)
        have hstc : st.location_cache = s.location_cache := by rw [hst]; split <;> rfl
        have hstf : st.change_fires = s.change_fires := by rw [hst]; split <;> rfl
        by_cases hcl : 0 + 1 = frame_idx
        · rw [if_pos hcl]
          exact ⟨closeDefinition X st, rfl, rfl, hstc, hstf, st.reg_undist, st.reg_dist, rfl⟩
        · rw [if_neg hcl]
          have hm2 : bmeasure mc frame_idx (0 + 1) < f := by
            rw [bmeasure_ge mc frame_idx i (by omega)] at hm
            rw [bmeasure_lt mc frame_idx (0 + 1) (by omega)]
            omega
          obtain ⟨s2, h1, h2, h3, h4, h5⟩ :=
            ih (0 + 1) st hstbus (by omega) (by omega) hf hm2
          exact ⟨s2, h1, h2, h3.trans hstc, h4.trans hstf, h5⟩
      · have hilen : i < mc.length := by omega
        obtain ⟨l, he⟩ := getl i hilen
        rw [buildLoop_step X mc frame_idx f i i s l hbus (by simp [hiN]) he]
        set st := if i ∈ s.observations_frame_idxs then s else updateDefinition X i l s with hst
        have hstbus : ¬ 1 ≤ st.build_up_status := by
          rw [hst]; split
          · exact hbus
          · exact not_le.mpr (hacc i (mkDict l) s.reg_undist s.reg_dist s.build_up_status)
        have hstc : st.location_cache = s.location_cache := by rw [hst]; split <;> rfl
        have hstf : st.change_fires = s.change_fires := by rw [hst]; split <;> rfl
        have hcl : ¬ (i + 1 = frame_idx) := by omega
        rw [if_neg hcl]
        have hm2 : bmeasure mc frame_idx (i + 1) < f := by
          rw [bmeasure_ge mc frame_idx i (by omega)] at hm
          rw [bmeasure_ge mc frame_idx (i + 1) (by omega)]
          omega
        obtain ⟨s2, h1, h2, h3, h4, h5⟩ :=
          ih (i + 1) st hstbus (by omega) (by omega) hf hm2
        exact ⟨s2, h1, h2, h3.trans hstc, h4.trans hstf, h5⟩

/-- Claim C2, counterexample to the original wording: with
`start_idx = 0` and the current call at `frame_idx = 2` over a
four-frame fully known marker cache, the bootstrap loop closes
(`build_up_status = 1`) after visiting only frames 0 and 1 — it never
returns to `start_idx - 1` and does not visit every frame, because the
closure condition compares against `frame_idx - 1`, not
`start_idx - 1`. -/
theorem bootstrap_closes_without_visiting_every_frame :
    (build_definition_from_cache XC mc4 2 sC2).map
      (fun t => (t.build_up_status, t.observations_frame_idxs, t.location_cache.isSome,
        t.change_fires)) = .ok (1, [0, 1], true, 0) := by rfl

/-- Claim C2 (amended): the closure condition of the bootstrap scan is
reaching the frame just before the `frame_idx` of the CURRENT
`update_location` call (`def_idx = frame_idx - 1`), for every starting
frame of the scan — with wrap-around at the end of the recording when
the scan starts at or after `frame_idx`.  When the scan reaches that
frame without interruption, `build_up_status` is set to `1.0`, unused
marker registrations are pruned, and the definition becomes terminal
(`Defined`).  This coincides with `start_idx - 1` exactly when the scan
starts at the current frame (as on the call that sets `start_idx`). -/
theorem bootstrap_closure_at_current_frame (X : ExtFns) (mc : List MEntry)
    (frame_idx j : Nat) (s : SOState)
    (hall : ∀ e ∈ mc, e ≠ none)
    (hacc : ∀ i d ru rd b, (X.updateDefCore i d ru rd b).2.2 < 1)
    (hstart : s.start_idx = some j)
    (hbus : ¬ 1 ≤ s.build_up_status)
    (hcase : j < frame_idx ∨ (0 < frame_idx ∧ frame_idx ≤ j))
    (hj : j ≤ mc.length) (hfi : frame_idx ≤ mc.length) :
    ∃ s2, build_definition_from_cache X mc frame_idx s = .ok s2 ∧
      s2.build_up_status = 1 ∧ definedS s2 = true ∧
      s2.location_cache = s.location_cache ∧
      s2.change_fires = s.change_fires ∧
      ∃ ru rd, (s2.reg_undist, s2.reg_dist) = X.pruneM ru rd := by
  have hm : bmeasure mc frame_idx j < 2 * mc.length + 4 := by
    by_cases h : j < frame_idx
    · rw [bmeasure_lt mc frame_idx j h]; omega
    · rw [bmeasure_ge mc frame_idx j h]; omega
  obtain ⟨s2, h1, h2, h3, h4, h5⟩ := buildLoop_closes X mc frame_idx hall hacc
    (2 * mc.length + 4) j s hbus hcase hj hfi hm
  refine ⟨s2, ?_, h2, ?_, h3, h4, h5⟩
  · rw [build_definition_from_cache, hstart]; exact h1
  · simp [definedS, h2]

/-- Witness for the amended C2 theorem: a scan starting at the current
frame (`start_idx = frame_idx = 2`) closes after a full wrap-around. -/
theorem bootstrap_closure_witness :
    (∀ e ∈ mc4, e ≠ none) ∧ ({sC2 with start_idx := some 2} : SOState).start_idx = some 2 ∧
    (¬ 1 ≤ ({sC2 with start_idx := some 2} : SOState).build_up_status) ∧
    2 ≤ mc4.length ∧
    ∃ s2, build_definition_from_cache XC mc4 2 {sC2 with start_idx := some 2} = .ok s2 ∧
      s2.build_up_status = 1 ∧ definedS s2 = true ∧
      s2.location_cache = ({sC2 with start_idx := some 2} : SOState).location_cache ∧
      s2.change_fires = ({sC2 with start_idx := some 2} : SOState).change_fires ∧
      ∃ ru rd, (s2.reg_undist, s2.reg_dist) = XC.pruneM ru rd :=
  ⟨by decide, rfl, by decide, by decide,
   bootstrap_closure_at_current_frame XC mc4 2 2 {sC2 with start_idx := some 2}
     (by decide) (fun i d ru rd b => by norm_num [XC]) rfl (by decide)
     (Or.inr ⟨by decide, by decide⟩) (by decide) (by decide)⟩
